import Mathlib

/-
Verification of the chase-and-collect arcade engine.

The development shallowly embeds the TypeScript sources:
  * the entity hierarchy (Entity, Player, BadGuy, Apple, Obstacle) from
    src/game/Entities.ts (present verbatim as the second document of
    src/src/game/Game.test.ts), and
  * the session engine (Game.update, Game.eatApple, Game.gameOver,
    Game.generateObstacles, Game.spawnApple) from the second document of
    src/src/game/Game.ts.

JavaScript numbers are modelled as real numbers; Math.random draws are
modelled as an explicit oracle of candidate positions passed to the
placement routines.  Callback hooks (onScoreUpdate, onTimeUpdate,
playSound, canvas drawing, localStorage) are external collaborators with
no effect on the simulation state and are omitted.
-/

namespace Chase

noncomputable section

open Real Classical

/-- Entity from Entities.ts: a positioned axis-aligned box with velocity. -/
@[ext]
structure Entity where
  x : ℝ
  y : ℝ
  width : ℝ
  height : ℝ
  vx : ℝ
  vy : ℝ

/-- getBounds().cx : center x coordinate. -/
def Entity.cx (e : Entity) : ℝ := e.x + e.width / 2

/-- getBounds().cy : center y coordinate. -/
def Entity.cy (e : Entity) : ℝ := e.y + e.height / 2

/-- getBounds().radius : half of the width. -/
def Entity.radius (e : Entity) : ℝ := e.width / 2

/-- Entity.checkCollision: axis-aligned bounding-box overlap test. -/
def Entity.checkCollision (a b : Entity) : Prop :=
  a.x < b.x + b.width ∧ a.x + a.width > b.x ∧
  a.y < b.y + b.height ∧ a.y + a.height > b.y

/-- Entity.checkCircleCollision: Euclidean distance of the centers is
strictly below the sum of the effective radii. -/
def Entity.checkCircleCollision (a b : Entity) : Prop :=
  Real.sqrt ((a.cx - b.cx) ^ 2 + (a.cy - b.cy) ^ 2) < a.radius + b.radius

/-- Player from Entities.ts: an entity of size 50 with speed 250. -/
@[ext]
structure Player extends Entity where
  speed : ℝ

/-- Player constructor: size 50, speed 250 (charType only picks an image). -/
def mkPlayer (x y : ℝ) : Player :=
  { x := x, y := y, width := 50, height := 50, vx := 0, vy := 0, speed := 250 }

/-- BadGuy from Entities.ts: size 50, baseSpeed 80, multiplier 1. -/
@[ext]
structure BadGuy extends Entity where
  baseSpeed : ℝ
  speed : ℝ
  speedMultiplier : ℝ

/-- BadGuy constructor. -/
def mkBadGuy (x y : ℝ) : BadGuy :=
  { x := x, y := y, width := 50, height := 50, vx := 0, vy := 0,
    baseSpeed := 80, speed := 80, speedMultiplier := 1 }

/-- AppleType from Entities.ts. -/
inductive AppleType where
  | standard
  | golden
  | green
deriving DecidableEq

/-- Apple from Entities.ts: an entity of size 40 tagged with a variant. -/
@[ext]
structure Apple extends Entity where
  type : AppleType

/-- Apple constructor. -/
def mkApple (x y : ℝ) (t : AppleType) : Apple :=
  { x := x, y := y, width := 40, height := 40, vx := 0, vy := 0, type := t }

/-- Obstacle from Entities.ts: a static entity of size 60. -/
def mkObstacle (x y : ℝ) : Entity :=
  { x := x, y := y, width := 60, height := 60, vx := 0, vy := 0 }

/-- Claim C9: for entities with strictly positive sizes, both collision
predicates are symmetric, every entity overlaps itself under either
predicate, and when the centers of the two entities coincide both
predicates hold. -/
theorem collision_predicates_symm_self_center (a b : Entity)
    (haw : 0 < a.width) (hah : 0 < a.height)
    (hbw : 0 < b.width) (hbh : 0 < b.height) :
    (a.checkCollision b ↔ b.checkCollision a) ∧
    (a.checkCircleCollision b ↔ b.checkCircleCollision a) ∧
    a.checkCollision a ∧ a.checkCircleCollision a ∧
    (a.cx = b.cx ∧ a.cy = b.cy → a.checkCollision b ∧ a.checkCircleCollision b) := by
  have hsq : ∀ u v : ℝ, (u - v) ^ 2 = (v - u) ^ 2 := by intro u v; ring
  refine ⟨?_, ?_, ?_, ?_, ?_⟩
  · unfold Entity.checkCollision; tauto
  · unfold Entity.checkCircleCollision
    rw [hsq a.cx b.cx, hsq a.cy b.cy, add_comm a.radius b.radius]
  · unfold Entity.checkCollision
    refine ⟨by linarith, by linarith, by linarith, by linarith⟩
  · unfold Entity.checkCircleCollision Entity.radius
    have : (a.cx - a.cx) ^ 2 + (a.cy - a.cy) ^ 2 = 0 := by ring
    rw [this, Real.sqrt_zero]
    linarith
  · rintro ⟨hx, hy⟩
    constructor
    · unfold Entity.checkCollision
      unfold Entity.cx at hx
      unfold Entity.cy at hy
      refine ⟨by linarith, by linarith, by linarith, by linarith⟩
    · unfold Entity.checkCircleCollision Entity.radius
      rw [hx, hy]
      have : (b.cx - b.cx) ^ 2 + (b.cy - b.cy) ^ 2 = 0 := by ring
      rw [this, Real.sqrt_zero]
      linarith

/-- Witness for C9 at two concrete entities of size 50 and 60. -/
theorem collision_predicates_symm_self_center_witness :
    ((mkPlayer 0 0).toEntity.checkCollision (mkObstacle 40 40) ↔
      (mkObstacle 40 40).checkCollision (mkPlayer 0 0).toEntity) ∧
    (mkPlayer 0 0).toEntity.checkCollision (mkPlayer 0 0).toEntity := by
  have h := collision_predicates_symm_self_center
    (mkPlayer 0 0).toEntity (mkObstacle 40 40)
    (by norm_num [mkPlayer]) (by norm_num [mkPlayer])
    (by norm_num [mkObstacle]) (by norm_num [mkObstacle])
  exact ⟨h.1, h.2.2.1⟩

/-- Keys: the four boolean direction flags read by Player.move. -/
structure Keys where
  up : Bool
  down : Bool
  left : Bool
  right : Bool

/-- Player.move from Entities.ts: directional movement; when both axes are
active each component is scaled by 1 / sqrt 2. -/
def Player.move (p : Player) (k : Keys) (dt : ℝ) : Player :=
  let vx0 : ℝ := (if k.left then -p.speed else 0) + (if k.right then p.speed else 0)
  let vy0 : ℝ := (if k.up then -p.speed else 0) + (if k.down then p.speed else 0)
  let vx : ℝ := if vx0 ≠ 0 ∧ vy0 ≠ 0 then vx0 * (1 / Real.sqrt 2) else vx0
  let vy : ℝ := if vx0 ≠ 0 ∧ vy0 ≠ 0 then vy0 * (1 / Real.sqrt 2) else vy0
  { p with vx := vx, vy := vy, x := p.x + vx * dt, y := p.y + vy * dt }

/-- Player.moveTowards from Entities.ts: pointer-seek movement with a
dead-zone of radius 5 around the player center. -/
def Player.moveTowards (p : Player) (targetX targetY dt : ℝ) : Player :=
  let cx := p.x + p.width / 2
  let cy := p.y + p.height / 2
  let dx := targetX - cx
  let dy := targetY - cy
  let dist := Real.sqrt (dx * dx + dy * dy)
  if dist < 5 then
    { p with vx := 0, vy := 0 }
  else
    let vx := dx / dist * p.speed
    let vy := dy / dist * p.speed
    { p with vx := vx, vy := vy, x := p.x + vx * dt, y := p.y + vy * dt }

/-- Player.handleScreenBounds from Entities.ts: clamp each axis into
[0, dimension - size]. -/
def Player.handleScreenBounds (p : Player) (width height : ℝ) : Player :=
  { p with x := max 0 (min (width - p.width) p.x),
           y := max 0 (min (height - p.height) p.y) }

/-- BadGuy.update from Entities.ts: recompute speed from the score, chase
the player center when the center distance is positive, else keep the
previous velocity; then integrate the position. -/
def BadGuy.update (b : BadGuy) (player : Player) (dt : ℝ) (score : ℕ) : BadGuy :=
  let speed := (b.baseSpeed + (score : ℝ) * 5) * b.speedMultiplier
  let dx := player.toEntity.cx - b.toEntity.cx
  let dy := player.toEntity.cy - b.toEntity.cy
  let dist := Real.sqrt (dx * dx + dy * dy)
  let vx := if dist > 0 then dx / dist * speed else b.vx
  let vy := if dist > 0 then dy / dist * speed else b.vy
  { b with speed := speed, vx := vx, vy := vy,
           x := b.x + vx * dt, y := b.y + vy * dt }

/-- The squared magnitude of a velocity obtained by scaling the unit vector
of (dx, dy) by s is s ^ 2, hence its magnitude is s when 0 ≤ s. -/
theorem sqrt_unit_scale {dx dy s : ℝ}
    (hd : 0 < Real.sqrt (dx * dx + dy * dy)) (hs : 0 ≤ s) :
    Real.sqrt ((dx / Real.sqrt (dx * dx + dy * dy) * s) ^ 2 +
      (dy / Real.sqrt (dx * dx + dy * dy) * s) ^ 2) = s := by
  have hpos : (0:ℝ) < dx * dx + dy * dy := Real.sqrt_pos.mp hd
  have hD2 : Real.sqrt (dx * dx + dy * dy) ^ 2 = dx * dx + dy * dy :=
    Real.sq_sqrt (le_of_lt hpos)
  have hval : (dx / Real.sqrt (dx * dx + dy * dy) * s) ^ 2 +
      (dy / Real.sqrt (dx * dx + dy * dy) * s) ^ 2
      = (dx * dx + dy * dy) / Real.sqrt (dx * dx + dy * dy) ^ 2 * s ^ 2 := by
    ring
  rw [hval, hD2, div_self (ne_of_gt hpos), one_mul, Real.sqrt_sq hs]

/-- Helper: magnitude of a concrete velocity whose squared sum is c ^ 2. -/
theorem sqrt_sum_sq_eq {vx vy c : ℝ} (hc : 0 ≤ c) (h : vx ^ 2 + vy ^ 2 = c ^ 2) :
    Real.sqrt (vx ^ 2 + vy ^ 2) = c := by
  rw [h, Real.sqrt_sq hc]

/-- Helper: square of a diagonal component a * (1 / sqrt 2). -/
theorem diag_component_sq (a : ℝ) : (a * (1 / Real.sqrt 2)) ^ 2 = a ^ 2 / 2 := by
  have h2 : Real.sqrt 2 ^ 2 = 2 := Real.sq_sqrt (by norm_num)
  have hne : Real.sqrt 2 ≠ 0 := by
    have := Real.sqrt_pos.mpr (show (0:ℝ) < 2 by norm_num)
    exact ne_of_gt this
  rw [mul_pow, div_pow, one_pow, h2]
  ring

/-- Claim C7: with the configured speed 250, the velocity set by
Player.move has magnitude 0 or exactly 250 for every combination of the
four direction flags; diagonal movement is normalized by 1 / sqrt 2. -/
theorem player_move_magnitude (p : Player) (k : Keys) (dt : ℝ)
    (hs : p.speed = 250) :
    Real.sqrt ((Player.move p k dt).vx ^ 2 + (Player.move p k dt).vy ^ 2) = 0 ∨
    Real.sqrt ((Player.move p k dt).vx ^ 2 + (Player.move p k dt).vy ^ 2) = p.speed := by
  have h2 : Real.sqrt 2 ^ 2 = 2 := Real.sq_sqrt (by norm_num)
  have h62500 : Real.sqrt 62500 = 250 := by
    rw [show (62500:ℝ) = 250 ^ 2 by norm_num,
      Real.sqrt_sq (by norm_num : (0:ℝ) ≤ 250)]
  have hdiag : Real.sqrt ((250 * (Real.sqrt 2)⁻¹) ^ 2 +
      (250 * (Real.sqrt 2)⁻¹) ^ 2) = 250 := by
    have e1 : (250 * (Real.sqrt 2)⁻¹) ^ 2 + (250 * (Real.sqrt 2)⁻¹) ^ 2
        = 125000 * (Real.sqrt 2 ^ 2)⁻¹ := by ring
    rw [e1, h2, show (125000:ℝ) * (2:ℝ)⁻¹ = 62500 by norm_num, h62500]
  rw [hs]
  obtain ⟨u, d, l, r⟩ := k
  cases u <;> cases d <;> cases l <;> cases r <;>
    simp only [Player.move, hs] <;>
    norm_num <;>
    first
      | exact Or.inr h62500
      | exact Or.inr hdiag
      | exact h62500
      | exact hdiag

/-- Witness for C7: the down-and-right diagonal at the configured speed. -/
theorem player_move_magnitude_witness :
    Real.sqrt ((Player.move (mkPlayer 0 0) ⟨false, true, false, true⟩ 1).vx ^ 2 +
      (Player.move (mkPlayer 0 0) ⟨false, true, false, true⟩ 1).vy ^ 2) = 0 ∨
    Real.sqrt ((Player.move (mkPlayer 0 0) ⟨false, true, false, true⟩ 1).vx ^ 2 +
      (Player.move (mkPlayer 0 0) ⟨false, true, false, true⟩ 1).vy ^ 2)
      = (mkPlayer 0 0).speed :=
  player_move_magnitude (mkPlayer 0 0) ⟨false, true, false, true⟩ 1 (by norm_num [mkPlayer])

/-- Claim C8: Player.moveTowards is division-safe.  If the distance from
the player center to the target is strictly below 5, both velocity
components become 0 and the position is unchanged; otherwise the velocity
is the unit vector toward the target scaled by the configured speed (its
magnitude equals the speed), and the position advances by velocity times
dt.  In the real-number model no division by zero is ever performed, since
the dividing distance is at least 5 in the branch that divides. -/
theorem moveTowards_deadzone_seek (p : Player) (targetX targetY dt dx dy dist : ℝ)
    (hdx : dx = targetX - (p.x + p.width / 2))
    (hdy : dy = targetY - (p.y + p.height / 2))
    (hdist : dist = Real.sqrt (dx * dx + dy * dy)) :
    (dist < 5 →
      Player.moveTowards p targetX targetY dt = { p with vx := 0, vy := 0 }) ∧
    (¬ dist < 5 →
      (Player.moveTowards p targetX targetY dt).vx = dx / dist * p.speed ∧
      (Player.moveTowards p targetX targetY dt).vy = dy / dist * p.speed ∧
      (Player.moveTowards p targetX targetY dt).x = p.x + dx / dist * p.speed * dt ∧
      (Player.moveTowards p targetX targetY dt).y = p.y + dy / dist * p.speed * dt ∧
      (0 ≤ p.speed →
        Real.sqrt ((Player.moveTowards p targetX targetY dt).vx ^ 2 +
          (Player.moveTowards p targetX targetY dt).vy ^ 2) = p.speed)) := by
  subst hdx
  subst hdy
  subst hdist
  unfold Player.moveTowards
  dsimp only
  split_ifs with h
  · exact ⟨fun _ => rfl, fun h2 => absurd h h2⟩
  · refine ⟨fun h2 => absurd h2 h, fun _ => ⟨rfl, rfl, rfl, rfl, fun hs => ?_⟩⟩
    have hd : 0 < Real.sqrt
        ((targetX - (p.x + p.width / 2)) * (targetX - (p.x + p.width / 2)) +
         (targetY - (p.y + p.height / 2)) * (targetY - (p.y + p.height / 2))) := by
      have := not_lt.mp h
      linarith
    exact sqrt_unit_scale hd hs

/-- Witness for C8: a target at center distance 50 from the player. -/
theorem moveTowards_deadzone_seek_witness :
    (Player.moveTowards (mkPlayer 0 0) 55 65 1).vx = 30 / 50 * (mkPlayer 0 0).speed ∧
    Real.sqrt ((Player.moveTowards (mkPlayer 0 0) 55 65 1).vx ^ 2 +
      (Player.moveTowards (mkPlayer 0 0) 55 65 1).vy ^ 2) = (mkPlayer 0 0).speed := by
  have h2500 : Real.sqrt ((30:ℝ) * 30 + 40 * 40) = 50 := by
    rw [show (30:ℝ) * 30 + 40 * 40 = 50 ^ 2 by norm_num,
      Real.sqrt_sq (by norm_num : (0:ℝ) ≤ 50)]
  have h := (moveTowards_deadzone_seek (mkPlayer 0 0) 55 65 1 30 40 50
    (by norm_num [mkPlayer]) (by norm_num [mkPlayer]) h2500.symm).2
    (by norm_num)
  exact ⟨h.1, h.2.2.2.2 (by norm_num [mkPlayer])⟩

/-- Claim C4: on every call of BadGuy.update the speed is recomputed as
(baseSpeed + score * 5) * speedMultiplier; when the center distance to the
player is positive the velocity is the unit vector toward the player
scaled by that speed (so its magnitude equals that speed whenever the
speed is nonnegative); when the distance is zero the previous velocity is
retained (no division by zero is performed); the position then advances by
velocity times dt. -/
theorem badGuy_update_spec (b : BadGuy) (p : Player) (dt : ℝ) (score : ℕ)
    (dx dy dist : ℝ)
    (hdx : dx = p.toEntity.cx - b.toEntity.cx)
    (hdy : dy = p.toEntity.cy - b.toEntity.cy)
    (hdist : dist = Real.sqrt (dx * dx + dy * dy)) :
    (BadGuy.update b p dt score).speed
      = (b.baseSpeed + (score : ℝ) * 5) * b.speedMultiplier ∧
    (0 < dist →
      (BadGuy.update b p dt score).vx = dx / dist * (BadGuy.update b p dt score).speed ∧
      (BadGuy.update b p dt score).vy = dy / dist * (BadGuy.update b p dt score).speed ∧
      (0 ≤ (BadGuy.update b p dt score).speed →
        Real.sqrt ((BadGuy.update b p dt score).vx ^ 2 +
          (BadGuy.update b p dt score).vy ^ 2) = (BadGuy.update b p dt score).speed)) ∧
    (dist = 0 →
      (BadGuy.update b p dt score).vx = b.vx ∧
      (BadGuy.update b p dt score).vy = b.vy) ∧
    (BadGuy.update b p dt score).x = b.x + (BadGuy.update b p dt score).vx * dt ∧
    (BadGuy.update b p dt score).y = b.y + (BadGuy.update b p dt score).vy * dt := by
  subst hdx
  subst hdy
  subst hdist
  unfold BadGuy.update
  dsimp only
  split_ifs with h
  · refine ⟨rfl, fun _ => ⟨rfl, rfl, fun hs => sqrt_unit_scale h hs⟩,
      fun h0 => ?_, rfl, rfl⟩
    rw [h0] at h
    exact absurd h (lt_irrefl 0)
  · exact ⟨rfl, fun h0 => absurd h0 h, fun _ => ⟨rfl, rfl⟩, rfl, rfl⟩

/-- Witness for C4: pursuer at the origin, player center offset (3, 4). -/
theorem badGuy_update_spec_witness :
    (BadGuy.update (mkBadGuy 0 0) (mkPlayer 3 4) 1 0).speed
      = ((mkBadGuy 0 0).baseSpeed + ((0:ℕ) : ℝ) * 5) * (mkBadGuy 0 0).speedMultiplier ∧
    (BadGuy.update (mkBadGuy 0 0) (mkPlayer 3 4) 1 0).vx
      = 3 / 5 * (BadGuy.update (mkBadGuy 0 0) (mkPlayer 3 4) 1 0).speed ∧
    Real.sqrt ((BadGuy.update (mkBadGuy 0 0) (mkPlayer 3 4) 1 0).vx ^ 2 +
      (BadGuy.update (mkBadGuy 0 0) (mkPlayer 3 4) 1 0).vy ^ 2)
      = (BadGuy.update (mkBadGuy 0 0) (mkPlayer 3 4) 1 0).speed := by
  have h25 : Real.sqrt ((3:ℝ) * 3 + 4 * 4) = 5 := by
    rw [show (3:ℝ) * 3 + 4 * 4 = 5 ^ 2 by norm_num,
      Real.sqrt_sq (by norm_num : (0:ℝ) ≤ 5)]
  have h := badGuy_update_spec (mkBadGuy 0 0) (mkPlayer 3 4) 1 0 3 4 5
    (by norm_num [mkBadGuy, mkPlayer, Entity.cx])
    (by norm_num [mkBadGuy, mkPlayer, Entity.cy])
    h25.symm
  have hpos := h.2.1 (by norm_num)
  refine ⟨h.1, hpos.1, hpos.2.2 ?_⟩
  rw [h.1]
  norm_num [mkBadGuy]

/-- Input mode from Game.ts settings.inputType. -/
inductive InputType where
  | keyboard
  | mouse
deriving DecidableEq

/-- The session state owned by the Game class (second document of
src/src/game/Game.ts).  Canvas dimensions are carried in the state; the
callback fields and the audio context are external collaborators. -/
@[ext]
structure GameState where
  player : Player
  badGuy : BadGuy
  apples : List Apple
  obstacles : List Entity
  score : ℕ
  time : ℝ
  highScore : ℕ
  isRunning : Bool
  isPaused : Bool
  appleTimer : ℝ
  keys : Keys
  mouseX : ℝ
  mouseY : ℝ
  inputType : InputType
  canvasW : ℝ
  canvasH : ℝ

/-- Game.eatApple: splice the apple out, add 1 to the score and 1 second
to the time, regardless of the apple's variant (the sound, the score
callback and updateLevel are external side effects). -/
def eatApple (g : GameState) (index : ℕ) : GameState :=
  { g with apples := g.apples.eraseIdx index,
           score := g.score + 1,
           time := g.time + 1 }

/-- Game.gameOver: stop the session and record a new high score when the
final score exceeds the stored one. -/
def gameOver (g : GameState) : GameState :=
  { g with isRunning := false,
           highScore := if g.score > g.highScore then g.score else g.highScore }

/-- One step of the obstacle-blocking loop in Game.update: if the moved
entity overlaps the obstacle, revert x to its pre-update value; if it
still overlaps, also revert y. -/
def resolveObstacle (e : Entity) (oldX oldY : ℝ) (obs : Entity) : Entity :=
  if e.checkCollision obs then
    let e1 := { e with x := oldX }
    if e1.checkCollision obs then { e1 with y := oldY } else e1
  else e

/-- The obstacle-blocking loop applied to every obstacle in order. -/
def resolveObstacles (e : Entity) (oldX oldY : ℝ) (l : List Entity) : Entity :=
  l.foldl (fun acc obs => resolveObstacle acc oldX oldY obs) e

/-- The retry loop of Game.spawnApple: up to fuel further attempts, drawing
candidate positions from the oracle; a candidate is accepted when no
obstacle box-overlaps it. -/
def appleLoop (obstacles : List Entity) (cand : ℕ → ℝ × ℝ) :
    ℕ → ℕ → Option Apple
  | _, 0 => none
  | attempts, fuel + 1 =>
    let a := mkApple (cand attempts).1 (cand attempts).2 AppleType.standard
    if ∃ o ∈ obstacles, o.checkCollision a.toEntity then
      appleLoop obstacles cand (attempts + 1) fuel
    else some a

/-- Game.spawnApple: at most 20 attempts; on success push the apple,
otherwise leave the apple set unchanged. -/
def spawnApple (g : GameState) (cand : ℕ → ℝ × ℝ) : GameState :=
  match appleLoop g.obstacles cand 0 20 with
  | some a => { g with apples := g.apples ++ [a] }
  | none => g

/-- The player built at the canvas center inside Game.generateObstacles,
used as the start-zone reference for obstacle placement. -/
def startPlayer (g : GameState) : Player := mkPlayer (g.canvasW / 2) (g.canvasH / 2)

/-- The retry loop of Game.generateObstacles for a single obstacle: a
candidate is rejected when it circle-overlaps the player start zone or
circle-overlaps a previously placed obstacle. -/
def obstacleLoop (pstart : Player) (prev : List Entity) (cand : ℕ → ℝ × ℝ) :
    ℕ → ℕ → Option Entity
  | _, 0 => none
  | attempts, fuel + 1 =>
    let o := mkObstacle (cand attempts).1 (cand attempts).2
    if o.checkCircleCollision pstart.toEntity then
      obstacleLoop pstart prev cand (attempts + 1) fuel
    else if ∃ e ∈ prev, o.checkCircleCollision e then
      obstacleLoop pstart prev cand (attempts + 1) fuel
    else some o

/-- Game.generateObstacles: for each requested obstacle run the bounded
retry loop (at most 50 attempts) and push the accepted obstacle; a
requested obstacle whose attempts are exhausted is dropped. -/
def generateObstacles (g : GameState) (count : ℕ) (cand : ℕ → ℕ → ℝ × ℝ) :
    GameState :=
  (List.range count).foldl (fun st i =>
    match obstacleLoop (startPlayer st) st.obstacles (cand i) 0 50 with
    | some o => { st with obstacles := st.obstacles ++ [o] }
    | none => st) g

/-- The player-vs-apples loop at the end of Game.update: walk the indices
downward from apples.length - 1 and eat every apple the player
circle-overlaps. -/
def eatLoop (g : GameState) : ℕ → GameState
  | 0 => g
  | n + 1 =>
    let g1 :=
      match g.apples[n]? with
      | some a =>
        if g.player.toEntity.checkCircleCollision a.toEntity then eatApple g n else g
      | none => g
    eatLoop g1 n

/-- The part of Game.update that runs after the timer check and before the
lethal player-pursuer collision check: spawn-timer accumulation and
possible apple spawn, the active movement strategy, screen-bound clamping,
player obstacle blocking, the pursuit step and pursuer obstacle
blocking. -/
def stepPre (g : GameState) (dt : ℝ) (cand : ℕ → ℝ × ℝ) : GameState :=
  let g1 := { g with time := g.time - dt }
  let g2 := { g1 with appleTimer := g1.appleTimer + dt }
  let g3 := if g2.appleTimer > 2 then spawnApple { g2 with appleTimer := 0 } cand else g2
  let p1 := if g3.inputType = InputType.mouse then
      Player.moveTowards g3.player g3.mouseX g3.mouseY dt
    else
      Player.move g3.player g3.keys dt
  let p2 := Player.handleScreenBounds p1 g3.canvasW g3.canvasH
  let p3 := { p2 with
    toEntity := resolveObstacles p2.toEntity g3.player.x g3.player.y g3.obstacles }
  let b1 := BadGuy.update g3.badGuy p3 dt g3.score
  let b2 := { b1 with
    toEntity := resolveObstacles b1.toEntity g3.badGuy.x g3.badGuy.y g3.obstacles }
  { g3 with player := p3, badGuy := b2 }

/-- Game.update: decrement the timer and end the session at zero (skipping
everything else); otherwise run the pre-collision pipeline, end the
session on a lethal player-pursuer circle overlap (skipping apple
consumption), else consume every apple the player overlaps. -/
def update (g : GameState) (dt : ℝ) (cand : ℕ → ℝ × ℝ) : GameState :=
  if g.time - dt ≤ 0 then
    gameOver { g with time := 0 }
  else if (stepPre g dt cand).player.toEntity.checkCircleCollision
      (stepPre g dt cand).badGuy.toEntity then
    gameOver (stepPre g dt cand)
  else
    eatLoop (stepPre g dt cand) (stepPre g dt cand).apples.length

/-- A concrete running session used to instantiate the theorems below. -/
def baseState : GameState :=
  { player := mkPlayer 400 300, badGuy := mkBadGuy 100 100,
    apples := [], obstacles := [], score := 0, time := 60, highScore := 0,
    isRunning := true, isPaused := false, appleTimer := 0,
    keys := ⟨false, false, false, false⟩, mouseX := 0, mouseY := 0,
    inputType := InputType.keyboard, canvasW := 800, canvasH := 600 }

theorem spawnApple_time (g : GameState) (cand : ℕ → ℝ × ℝ) :
    (spawnApple g cand).time = g.time := by
  unfold spawnApple
  cases appleLoop g.obstacles cand 0 20 <;> rfl

theorem spawnApple_score (g : GameState) (cand : ℕ → ℝ × ℝ) :
    (spawnApple g cand).score = g.score := by
  unfold spawnApple
  cases appleLoop g.obstacles cand 0 20 <;> rfl

theorem spawnApple_obstacles (g : GameState) (cand : ℕ → ℝ × ℝ) :
    (spawnApple g cand).obstacles = g.obstacles := by
  unfold spawnApple
  cases appleLoop g.obstacles cand 0 20 <;> rfl

theorem eatLoop_player (n : ℕ) : ∀ g : GameState, (eatLoop g n).player = g.player := by
  induction n with
  | zero => intro g; rfl
  | succ n ih =>
    intro g
    simp only [eatLoop]
    rw [ih]
    cases h : g.apples[n]?
    · rfl
    · dsimp only
      split_ifs <;> rfl

theorem eatLoop_badGuy (n : ℕ) : ∀ g : GameState, (eatLoop g n).badGuy = g.badGuy := by
  induction n with
  | zero => intro g; rfl
  | succ n ih =>
    intro g
    simp only [eatLoop]
    rw [ih]
    cases h : g.apples[n]?
    · rfl
    · dsimp only
      split_ifs <;> rfl

theorem eatLoop_isRunning (n : ℕ) :
    ∀ g : GameState, (eatLoop g n).isRunning = g.isRunning := by
  induction n with
  | zero => intro g; rfl
  | succ n ih =>
    intro g
    simp only [eatLoop]
    rw [ih]
    cases h : g.apples[n]?
    · rfl
    · dsimp only
      split_ifs <;> rfl

theorem eatLoop_time_le (n : ℕ) : ∀ g : GameState, g.time ≤ (eatLoop g n).time := by
  induction n with
  | zero => intro g; exact le_refl _
  | succ n ih =>
    intro g
    simp only [eatLoop]
    refine le_trans ?_ (ih _)
    cases h : g.apples[n]?
    · exact le_refl _
    · dsimp only
      split_ifs
      · have he : (eatApple g n).time = g.time + 1 := rfl
        rw [he]
        linarith
      · exact le_refl _

theorem stepPre_time (g : GameState) (dt : ℝ) (cand : ℕ → ℝ × ℝ) :
    (stepPre g dt cand).time = g.time - dt := by
  unfold stepPre
  dsimp only
  split_ifs with h
  · exact spawnApple_time _ _
  · rfl

/-- A session holding a single golden apple with 10 seconds remaining,
the failing input of the golden-apple reward test. -/
def goldenState : GameState :=
  { baseState with time := 10, apples := [mkApple 0 0 AppleType.golden] }

/-- A session holding a single green (bonus-slow) apple. -/
def greenState : GameState :=
  { baseState with time := 10, apples := [mkApple 200 200 AppleType.green] }

/-- Claim C1 (code bug): Game.eatApple gives every apple variant the same
reward, +1 score and +1 second, and never touches the pursuer's speed
multiplier.  Evaluated on a golden apple with time 10 it produces time 11
and score 1, where the specification and the repository's own test
(golden apple should add 15 seconds) require time 25 and an unchanged
score; evaluated on a green apple it leaves the speed multiplier at 1,
where the test (green apple should halve bad guy speed) requires 0.5.
In every case the consumed apple is removed from the active set. -/
theorem eatApple_ignores_variant :
    (eatApple goldenState 0).time = 11 ∧
    (eatApple goldenState 0).score = 1 ∧
    (eatApple goldenState 0).apples = [] ∧
    (eatApple greenState 0).badGuy.speedMultiplier = 1 ∧
    (eatApple greenState 0).score = 1 := by
  refine ⟨?_, rfl, ?_, ?_, rfl⟩
  · show (10:ℝ) + 1 = 11
    norm_num
  · rfl
  · rfl

/-- Claim C2: update first decrements the remaining time by dt; if the
result is at most zero the time is clamped to exactly 0 and the session
ends (isRunning becomes false) with no further per-frame steps executed
(apples, score, player and pursuer are untouched); and after any update
call the remaining time is nonnegative. -/
theorem update_timer_clamp (g : GameState) (dt : ℝ) (cand : ℕ → ℝ × ℝ)
    (hdt : 0 < dt) :
    (g.time - dt ≤ 0 →
      (update g dt cand).time = 0 ∧
      (update g dt cand).isRunning = false ∧
      (update g dt cand).apples = g.apples ∧
      (update g dt cand).score = g.score ∧
      (update g dt cand).player = g.player ∧
      (update g dt cand).badGuy = g.badGuy) ∧
    0 ≤ (update g dt cand).time := by
  constructor
  · intro h
    unfold update
    rw [if_pos h]
    exact ⟨rfl, rfl, rfl, rfl, rfl, rfl⟩
  · by_cases h : g.time - dt ≤ 0
    · unfold update
      rw [if_pos h]
      exact le_refl _
    · unfold update
      rw [if_neg h]
      have ht : 0 < g.time - dt := by
        have := not_le.mp h
        linarith
      split_ifs with hc
      · have heq : (gameOver (stepPre g dt cand)).time = (stepPre g dt cand).time := rfl
        rw [heq, stepPre_time]
        linarith
      · have h1 := eatLoop_time_le (stepPre g dt cand).apples.length (stepPre g dt cand)
        rw [stepPre_time] at h1
        linarith

/-- Witness for C2 at a concrete session with time 1 and dt 2. -/
theorem update_timer_clamp_witness :
    (update { baseState with time := 1 } 2 (fun _ => (0, 0))).time = 0 ∧
    (update { baseState with time := 1 } 2 (fun _ => (0, 0))).isRunning = false ∧
    0 ≤ (update { baseState with time := 1 } 2 (fun _ => (0, 0))).time := by
  have h := update_timer_clamp { baseState with time := 1 } 2 (fun _ => (0, 0))
    (by norm_num)
  have h2 := h.1 (by norm_num [baseState])
  exact ⟨h2.1, h2.2.1, h.2⟩

/-- Claim C10: when the timer has not expired and the player circle-overlaps
the pursuer at the lethal-collision check (after movement and obstacle
resolution, i.e. on the state produced by stepPre), the session ends and
the apple-consumption loop is skipped: the apple set, the score and the
pursuer's speed multiplier keep the values they had at the check, and
isRunning becomes false. -/
theorem update_lethal_skips_consumption (g : GameState) (dt : ℝ)
    (cand : ℕ → ℝ × ℝ)
    (ht : ¬ g.time - dt ≤ 0)
    (hc : (stepPre g dt cand).player.toEntity.checkCircleCollision
      (stepPre g dt cand).badGuy.toEntity) :
    update g dt cand = gameOver (stepPre g dt cand) ∧
    (update g dt cand).apples = (stepPre g dt cand).apples ∧
    (update g dt cand).score = (stepPre g dt cand).score ∧
    (update g dt cand).badGuy.speedMultiplier
      = (stepPre g dt cand).badGuy.speedMultiplier ∧
    (update g dt cand).isRunning = false := by
  have he : update g dt cand = gameOver (stepPre g dt cand) := by
    unfold update
    rw [if_neg ht, if_pos hc]
  refine ⟨he, ?_, ?_, ?_, ?_⟩ <;> rw [he] <;> rfl

/-- Claim C3 (amended): one step of the obstacle-blocking rule applied by
update to both the player and the pursuer.  When the moved entity overlaps
the obstacle its x coordinate is reverted to the pre-update value; the y
coordinate is additionally reverted only when the overlap persists after
the x revert, so sliding along the y axis is possible; when there is no
overlap the entity is untouched; and when the pre-update position did not
overlap the obstacle the resolved position does not overlap it either. -/
theorem resolveObstacle_partial_revert (e : Entity) (oldX oldY : ℝ)
    (obs : Entity) :
    (e.checkCollision obs → (resolveObstacle e oldX oldY obs).x = oldX) ∧
    (¬ e.checkCollision obs → resolveObstacle e oldX oldY obs = e) ∧
    (¬ Entity.checkCollision { e with x := oldX, y := oldY } obs →
      ¬ (resolveObstacle e oldX oldY obs).checkCollision obs) := by
  unfold resolveObstacle
  dsimp only
  split_ifs with h1 h2
  · exact ⟨fun _ => rfl, fun hn => absurd h1 hn, fun hold => hold⟩
  · exact ⟨fun _ => rfl, fun hn => absurd h1 hn, fun _ => h2⟩
  · exact ⟨fun hcol => absurd hcol h1, fun _ => rfl, fun _ => h1⟩

/-- Witness for C3 (amended) at a player box that clears the obstacle after
the x revert alone. -/
theorem resolveObstacle_partial_revert_witness :
    (resolveObstacle (mkPlayer 60 80).toEntity 45 60 (mkObstacle 100 100)).x = 45 ∧
    ¬ (resolveObstacle (mkPlayer 60 80).toEntity 45 60
        (mkObstacle 100 100)).checkCollision (mkObstacle 100 100) := by
  have h := resolveObstacle_partial_revert (mkPlayer 60 80).toEntity 45 60
    (mkObstacle 100 100)
  exact ⟨h.1 (by norm_num [mkPlayer, mkObstacle, Entity.checkCollision]),
    h.2.2 (by norm_num [mkPlayer, mkObstacle, Entity.checkCollision])⟩

theorem update_player_of_time_pos (g : GameState) (dt : ℝ) (cand : ℕ → ℝ × ℝ)
    (ht : ¬ g.time - dt ≤ 0) :
    (update g dt cand).player = (stepPre g dt cand).player := by
  unfold update
  rw [if_neg ht]
  split_ifs with hc
  · rfl
  · exact eatLoop_player _ _

/-- A session in which the pursuer starts exactly on top of the player. -/
def lethalState : GameState := { baseState with badGuy := mkBadGuy 400 300 }

/-- Witness for C10: with the pursuer on top of the player, one update call
ends the session without consuming anything. -/
theorem update_lethal_skips_consumption_witness :
    (update lethalState 1 (fun _ => (0, 0))).isRunning = false ∧
    (update lethalState 1 (fun _ => (0, 0))).apples
      = (stepPre lethalState 1 (fun _ => (0, 0))).apples ∧
    (update lethalState 1 (fun _ => (0, 0))).score
      = (stepPre lethalState 1 (fun _ => (0, 0))).score ∧
    (update lethalState 1 (fun _ => (0, 0))).badGuy.speedMultiplier
      = (stepPre lethalState 1 (fun _ => (0, 0))).badGuy.speedMultiplier := by
  have hcol : (stepPre lethalState 1 (fun _ => (0, 0))).player.toEntity.checkCircleCollision
      (stepPre lethalState 1 (fun _ => (0, 0))).badGuy.toEntity := by
    have hmode : (InputType.keyboard = InputType.mouse) = False := by
      simp
    have hmin1 : min (750:ℝ) 400 = 400 := min_eq_right (by norm_num)
    have hmax1 : max (0:ℝ) 400 = 400 := max_eq_right (by norm_num)
    have hmin2 : min (550:ℝ) 300 = 300 := min_eq_right (by norm_num)
    have hmax2 : max (0:ℝ) 300 = 300 := max_eq_right (by norm_num)
    norm_num [stepPre, lethalState, baseState, spawnApple, appleLoop,
      Player.move, Player.handleScreenBounds, BadGuy.update,
      resolveObstacles, List.foldl, mkPlayer, mkBadGuy, hmode,
      hmin1, hmax1, hmin2, hmax2,
      Entity.cx, Entity.cy, Entity.radius, Entity.checkCircleCollision,
      Real.sqrt_zero]
  have h := update_lethal_skips_consumption lethalState 1 (fun _ => (0, 0))
    (by norm_num [lethalState, baseState]) hcol
  exact ⟨h.2.2.2.2, h.2.1, h.2.2.1, h.2.2.2.1⟩

/-- A session in mouse mode whose pointer target drags the player
diagonally into the obstacle at (100, 100). -/
def cexState : GameState :=
  { baseState with player := mkPlayer 45 60, obstacles := [mkObstacle 100 100], inputType := InputType.mouse, mouseX := 100, mouseY := 125 }

/-- Claim C3 counterexample: an update call in which the player overlaps
the obstacle after its movement step (position (60, 80) against the
obstacle at (100, 100)) yet ends at (45, 80), not at its pre-update
position (45, 60): only x is reverted and the moved y value is kept, so
the revert is not a full both-axes revert. -/
theorem update_obstacle_revert_cex :
    Entity.checkCollision
      (Player.handleScreenBounds
        (Player.moveTowards (mkPlayer 45 60) 100 125 (1 / 10)) 800 600).toEntity
      (mkObstacle 100 100) ∧
    cexState.player.y = 60 ∧
    (update cexState (1 / 10) (fun _ => (0, 0))).player.x = 45 ∧
    (update cexState (1 / 10) (fun _ => (0, 0))).player.y = 80 := by
  have h2500 : Real.sqrt 2500 = 50 := by
    rw [show (2500:ℝ) = 50 ^ 2 by norm_num,
      Real.sqrt_sq (by norm_num : (0:ℝ) ≤ 50)]
  have hmin1 : min (750:ℝ) 60 = 60 := min_eq_right (by norm_num)
  have hmax1 : max (0:ℝ) 60 = 60 := max_eq_right (by norm_num)
  have hmin2 : min (550:ℝ) 80 = 80 := min_eq_right (by norm_num)
  have hmax2 : max (0:ℝ) 80 = 80 := max_eq_right (by norm_num)
  have hplayer : (update cexState (1 / 10) (fun _ => (0, 0))).player
      = (stepPre cexState (1 / 10) (fun _ => (0, 0))).player :=
    update_player_of_time_pos _ _ _ (by norm_num [cexState, baseState])
  refine ⟨?_, ?_, ?_, ?_⟩
  · norm_num [Player.moveTowards, Player.handleScreenBounds, mkPlayer,
      mkObstacle, Entity.checkCollision, h2500, hmin1, hmax1, hmin2, hmax2]
  · norm_num [cexState, baseState, mkPlayer]
  · rw [hplayer]
    norm_num [stepPre, cexState, baseState, spawnApple, appleLoop,
      Player.moveTowards, Player.handleScreenBounds, resolveObstacles,
      resolveObstacle, List.foldl, mkPlayer, mkObstacle,
      Entity.checkCollision, h2500, hmin1, hmax1, hmin2, hmax2]
  · rw [hplayer]
    norm_num [stepPre, cexState, baseState, spawnApple, appleLoop,
      Player.moveTowards, Player.handleScreenBounds, resolveObstacles,
      resolveObstacle, List.foldl, mkPlayer, mkObstacle,
      Entity.checkCollision, h2500, hmin1, hmax1, hmin2, hmax2]

theorem le_sqrt_of_sq_le {r d : ℝ} (hr : 0 ≤ r) (hd : 0 ≤ d) (h : r ^ 2 ≤ d) :
    r ≤ Real.sqrt d :=
  (Real.le_sqrt hr hd).mpr h

theorem generateObstacles_length (g : GameState) (count : ℕ)
    (cand : ℕ → ℕ → ℝ × ℝ) :
    (generateObstacles g count cand).obstacles.length
      ≤ g.obstacles.length + count := by
  induction count with
  | zero => simp [generateObstacles]
  | succ n ih =>
    unfold generateObstacles at ih ⊢
    rw [List.range_succ, List.foldl_append, List.foldl_cons, List.foldl_nil]
    have hstep : ∀ (st : GameState) (i : ℕ),
        ((match obstacleLoop (startPlayer st) st.obstacles (cand i) 0 50 with
          | some o => { st with obstacles := st.obstacles ++ [o] }
          | none => st) : GameState).obstacles.length ≤ st.obstacles.length + 1 := by
      intro st i
      cases obstacleLoop (startPlayer st) st.obstacles (cand i) 0 50
      · simp
      · simp
    refine le_trans (hstep _ n) ?_
    omega

/-- Claim C5: every placement loop is bounded: generateObstacles adds at
most count obstacles (exactly bounded by the requested count when starting
from an empty set), each via at most 50 candidate draws, and spawnApple
(at most 20 candidate draws) either appends exactly one apple or, when
every attempt fails, leaves the state unchanged. -/
theorem placement_bounded (g : GameState) (count : ℕ) (cand : ℕ → ℕ → ℝ × ℝ)
    (ac : ℕ → ℝ × ℝ) :
    (g.obstacles = [] → (generateObstacles g count cand).obstacles.length ≤ count) ∧
    (generateObstacles g count cand).obstacles.length ≤ g.obstacles.length + count ∧
    ((spawnApple g ac).apples = g.apples ∨
      ∃ a, (spawnApple g ac).apples = g.apples ++ [a]) ∧
    (appleLoop g.obstacles ac 0 20 = none → spawnApple g ac = g) := by
  refine ⟨?_, generateObstacles_length g count cand, ?_, ?_⟩
  · intro h
    have hlen := generateObstacles_length g count cand
    rw [h] at hlen
    simpa using hlen
  · unfold spawnApple
    cases appleLoop g.obstacles ac 0 20
    · exact Or.inl rfl
    · exact Or.inr ⟨_, rfl⟩
  · intro h
    unfold spawnApple
    rw [h]

/-- The retry loop of spawnApple fails for every fuel when every candidate
the oracle can produce overlaps an obstacle. -/
theorem appleLoop_none_of_all_bad (obstacles : List Entity) (cand : ℕ → ℝ × ℝ)
    (h : ∀ k, ∃ o ∈ obstacles,
      o.checkCollision (mkApple (cand k).1 (cand k).2 AppleType.standard).toEntity) :
    ∀ fuel attempts, appleLoop obstacles cand attempts fuel = none := by
  intro fuel
  induction fuel with
  | zero => intro a; rfl
  | succ n ih =>
    intro a
    simp only [appleLoop]
    rw [if_pos (h a)]
    exact ih _

/-- A session whose only obstacle covers the constant candidate position. -/
def crowdedState : GameState := { baseState with obstacles := [mkObstacle 100 100] }

/-- Witness for C5: a spawn call whose 20 attempts all land on the obstacle
leaves the state unchanged, and obstacle generation respects its bound. -/
theorem placement_bounded_witness :
    (generateObstacles crowdedState 3 (fun _ _ => (0, 0))).obstacles.length
      ≤ crowdedState.obstacles.length + 3 ∧
    spawnApple crowdedState (fun _ => (100, 100)) = crowdedState := by
  have hbad : ∀ k : ℕ, ∃ o ∈ crowdedState.obstacles,
      o.checkCollision (mkApple ((((100:ℝ), (100:ℝ)) : ℝ × ℝ)).1
        ((((100:ℝ), (100:ℝ)) : ℝ × ℝ)).2 AppleType.standard).toEntity := by
    intro k
    refine ⟨mkObstacle 100 100, by simp [crowdedState], ?_⟩
    norm_num [mkObstacle, mkApple, Entity.checkCollision]
  have hnone : appleLoop crowdedState.obstacles (fun _ => (100, 100)) 0 20 = none :=
    appleLoop_none_of_all_bad crowdedState.obstacles (fun _ => (100, 100)) hbad 20 0
  have h := placement_bounded crowdedState 3 (fun _ _ => (0, 0)) (fun _ => (100, 100))
  exact ⟨h.2.1, h.2.2.2 hnone⟩

/-- The placement invariant maintained by generateObstacles: every obstacle
avoids (in the circular sense) the player start zone, and every pair of
obstacles is circle-overlap free. -/
def ObstaclesValid (g : GameState) : Prop :=
  (∀ o ∈ g.obstacles, ¬ o.checkCircleCollision (startPlayer g).toEntity) ∧
  List.Pairwise (fun a b => ¬ Entity.checkCircleCollision b a) g.obstacles

theorem obstacleLoop_valid (pstart : Player) (prev : List Entity)
    (cand : ℕ → ℝ × ℝ) :
    ∀ fuel attempts o, obstacleLoop pstart prev cand attempts fuel = some o →
      ¬ o.checkCircleCollision pstart.toEntity ∧
      ∀ e ∈ prev, ¬ o.checkCircleCollision e := by
  intro fuel
  induction fuel with
  | zero => intro a o h; exact Option.noConfusion h
  | succ n ih =>
    intro a o h
    simp only [obstacleLoop] at h
    split_ifs at h with h1 h2
    · exact ih _ _ h
    · exact ih _ _ h
    · cases h
      refine ⟨h1, ?_⟩
      push_neg at h2
      exact h2

theorem appleLoop_valid (obstacles : List Entity) (cand : ℕ → ℝ × ℝ) :
    ∀ fuel attempts a, appleLoop obstacles cand attempts fuel = some a →
      ∀ o ∈ obstacles, ¬ o.checkCollision a.toEntity := by
  intro fuel
  induction fuel with
  | zero => intro a x h; exact Option.noConfusion h
  | succ n ih =>
    intro a x h
    simp only [appleLoop] at h
    split_ifs at h with h1
    · exact ih _ _ h
    · cases h
      push_neg at h1
      exact h1

theorem generateObstacles_valid (g : GameState) (count : ℕ)
    (cand : ℕ → ℕ → ℝ × ℝ) (hg : ObstaclesValid g) :
    ObstaclesValid (generateObstacles g count cand) := by
  unfold generateObstacles
  induction count with
  | zero => simpa using hg
  | succ n ih =>
    rw [List.range_succ, List.foldl_append, List.foldl_cons, List.foldl_nil]
    set st := (List.range n).foldl (fun st i =>
      match obstacleLoop (startPlayer st) st.obstacles (cand i) 0 50 with
      | some o => { st with obstacles := st.obstacles ++ [o] }
      | none => st) g with hst
    cases heq : obstacleLoop (startPlayer st) st.obstacles (cand n) 0 50 with
    | none => exact ih
    | some o =>
      have hv := obstacleLoop_valid (startPlayer st) st.obstacles (cand n) 50 0 o heq
      constructor
      · intro e he
        rcases List.mem_append.mp he with hm | hm
        · exact ih.1 e hm
        · rw [List.mem_singleton.mp hm]
          exact hv.1
      · rw [List.pairwise_append]
        refine ⟨ih.2, List.pairwise_singleton _ _, ?_⟩
        intro a ha b hb
        rw [List.mem_singleton.mp hb]
        exact hv.2 a ha

/-- Claim C6 (amended): generateObstacles accepts only candidates with zero
circle-overlap conflicts against the player's start zone and all
previously placed obstacles (the source tests checkCircleCollision here,
not the axis-aligned test), and spawnApple accepts only candidates with
zero axis-aligned-overlap conflicts against every obstacle, each at the
moment the entity is added. -/
theorem placement_validity (g : GameState) (count : ℕ) (cand : ℕ → ℕ → ℝ × ℝ)
    (ac : ℕ → ℝ × ℝ) (hg : ObstaclesValid g) :
    ObstaclesValid (generateObstacles g count cand) ∧
    ∀ x ∈ (spawnApple g ac).apples, x ∈ g.apples ∨
      ∀ o ∈ g.obstacles, ¬ o.checkCollision x.toEntity := by
  refine ⟨generateObstacles_valid g count cand hg, ?_⟩
  intro x hx
  unfold spawnApple at hx
  rcases h2 : appleLoop g.obstacles ac 0 20 with _ | a
  · rw [h2] at hx
    exact Or.inl hx
  · rw [h2] at hx
    rcases List.mem_append.mp hx with hm | hm
    · exact Or.inl hm
    · rw [List.mem_singleton.mp hm]
      exact Or.inr (appleLoop_valid g.obstacles ac 20 0 a h2)

/-- Witness for C6 (amended) starting from the empty obstacle set. -/
theorem placement_validity_witness :
    ObstaclesValid (generateObstacles baseState 1 (fun _ _ => (0, 0))) ∧
    ∀ x ∈ (spawnApple baseState (fun _ => (0, 0))).apples, x ∈ baseState.apples ∨
      ∀ o ∈ baseState.obstacles, ¬ o.checkCollision x.toEntity := by
  have hv : ObstaclesValid baseState := by
    constructor
    · intro o ho
      simp [baseState] at ho
    · simp [baseState]
  exact placement_validity baseState 1 (fun _ _ => (0, 0)) (fun _ => (0, 0)) hv

/-- An oracle that proposes (0, 0) for the first obstacle and (43, 43) for
every later one. -/
def genCand : ℕ → ℕ → ℝ × ℝ := fun i _ => if i = 0 then (0, 0) else (43, 43)

/-- Claim C6 counterexample: generateObstacles accepts two obstacles, at
(0, 0) and (43, 43), whose circular tests pass (center distance
sqrt 3698 is at least 60) yet whose axis-aligned boxes overlap, so
obstacle placement does not guarantee zero axis-aligned-overlap
conflicts. -/
theorem generateObstacles_box_overlap_cex :
    (generateObstacles baseState 2 genCand).obstacles
      = [mkObstacle 0 0, mkObstacle 43 43] ∧
    (mkObstacle 43 43).checkCollision (mkObstacle 0 0) := by
  have hc0 : genCand 0 0 = ((0:ℝ), (0:ℝ)) := by norm_num [genCand]
  have hc1 : genCand 1 0 = ((43:ℝ), (43:ℝ)) := by norm_num [genCand]
  have hno1 : ¬ (mkObstacle 0 0).checkCircleCollision (mkPlayer 400 300).toEntity := by
    intro hcol
    unfold Entity.checkCircleCollision at hcol
    have e1 : ((mkObstacle 0 0).cx - (mkPlayer 400 300).toEntity.cx) ^ 2 +
        ((mkObstacle 0 0).cy - (mkPlayer 400 300).toEntity.cy) ^ 2 = 243050 := by
      norm_num [mkObstacle, mkPlayer, Entity.cx, Entity.cy]
    have e2 : (mkObstacle 0 0).radius + (mkPlayer 400 300).toEntity.radius = 55 := by
      norm_num [mkObstacle, mkPlayer, Entity.radius]
    rw [e1, e2] at hcol
    have h55 : (55:ℝ) ≤ Real.sqrt 243050 :=
      le_sqrt_of_sq_le (by norm_num) (by norm_num) (by norm_num)
    linarith
  have hno2 : ¬ (mkObstacle 43 43).checkCircleCollision (mkPlayer 400 300).toEntity := by
    intro hcol
    unfold Entity.checkCircleCollision at hcol
    have e1 : ((mkObstacle 43 43).cx - (mkPlayer 400 300).toEntity.cx) ^ 2 +
        ((mkObstacle 43 43).cy - (mkPlayer 400 300).toEntity.cy) ^ 2 = 187408 := by
      norm_num [mkObstacle, mkPlayer, Entity.cx, Entity.cy]
    have e2 : (mkObstacle 43 43).radius + (mkPlayer 400 300).toEntity.radius = 55 := by
      norm_num [mkObstacle, mkPlayer, Entity.radius]
    rw [e1, e2] at hcol
    have h55 : (55:ℝ) ≤ Real.sqrt 187408 :=
      le_sqrt_of_sq_le (by norm_num) (by norm_num) (by norm_num)
    linarith
  have hno3 : ¬ (mkObstacle 43 43).checkCircleCollision (mkObstacle 0 0) := by
    intro hcol
    unfold Entity.checkCircleCollision at hcol
    have e1 : ((mkObstacle 43 43).cx - (mkObstacle 0 0).cx) ^ 2 +
        ((mkObstacle 43 43).cy - (mkObstacle 0 0).cy) ^ 2 = 3698 := by
      norm_num [mkObstacle, Entity.cx, Entity.cy]
    have e2 : (mkObstacle 43 43).radius + (mkObstacle 0 0).radius = 60 := by
      norm_num [mkObstacle, Entity.radius]
    rw [e1, e2] at hcol
    have h60 : (60:ℝ) ≤ Real.sqrt 3698 :=
      le_sqrt_of_sq_le (by norm_num) (by norm_num) (by norm_num)
    linarith
  have hloop1 : obstacleLoop (mkPlayer 400 300) [] (genCand 0) 0 50
      = some (mkObstacle 0 0) := by
    rw [show (50:ℕ) = 49 + 1 from rfl]
    simp only [obstacleLoop, hc0]
    rw [if_neg hno1]
    simp
  have hex : ¬ ∃ e ∈ [mkObstacle (0:ℝ) 0], (mkObstacle 43 43).checkCircleCollision e := by
    rintro ⟨e, he, hcol⟩
    rw [List.mem_singleton.mp he] at hcol
    exact hno3 hcol
  have hloop2 : obstacleLoop (mkPlayer 400 300) [mkObstacle 0 0] (genCand 1) 0 50
      = some (mkObstacle 43 43) := by
    rw [show (50:ℕ) = 49 + 1 from rfl]
    simp only [obstacleLoop, hc1]
    rw [if_neg hno2, if_neg hex]
  constructor
  · have hW : baseState.canvasW = 800 := rfl
    have hH : baseState.canvasH = 600 := rfl
    have hobs : baseState.obstacles = [] := rfl
    have hmk : mkPlayer ((800:ℝ) / 2) ((600:ℝ) / 2) = mkPlayer 400 300 := by
      norm_num
    unfold generateObstacles
    rw [show List.range 2 = [0, 1] from rfl, List.foldl_cons, List.foldl_cons,
      List.foldl_nil]
    simp only [startPlayer, hW, hH, hmk, hobs, hloop1, hloop2,
      List.nil_append, List.cons_append]
  · norm_num [mkObstacle, Entity.checkCollision]

end

end Chase
